import Mathlib

/-!
Verification of the cclib unified exchange client layer.

This file shallowly embeds the authenticated-request pipeline of the
repository (request building, signing, dispatch-outcome handling and
response classification) and proves or refutes the specification claims
about it.

Modelling conventions:
* JSON values are the `Json` inductive below; JSON numbers are modelled
  as integers (every native code the classifiers inspect is integral).
* A decoded HTTP response is a `status : Int`, an `Option Json` (the
  result of `rsp.json()`, `none` when decoding raised) and the raw body
  `content : String` (standing for `rsp.content` decoded as UTF-8).
* Exceptions raised by the library are `PyOutcome.raised` carrying an
  `ErrorRecord` (the fields of `errors.BaseError`); uncaught plain
  Python exceptions (ValueError, KeyError, AttributeError, TypeError)
  are `PyOutcome.pyexc` carrying the exception class name.
* `hmac.new(secret, payload, sha256).hexdigest()` and its base64
  variant are Python-stdlib primitives, not repository code; the
  signing functions abstract them as an explicit function argument
  `hm : String → String → String` (secret and canonical payload to
  signature), so every theorem about canonical-string construction is
  proved for an arbitrary digest function.
* Exact interpolated exception texts (such as the repr of a caught
  exception inside a format string) are abbreviated; no claim inspects
  them.
-/

inductive Json where
  | null : Json
  | bool (b : Bool) : Json
  | num (n : Int) : Json
  | str (s : String) : Json
  | arr (xs : List Json) : Json
  | obj (fields : List (String × Json)) : Json

mutual

def Json.decEq : (a b : Json) → Decidable (a = b)
  | .null, .null => isTrue rfl
  | .bool x, .bool y =>
    if h : x = y then isTrue (by rw [h]) else isFalse (fun hc => by cases hc; exact h rfl)
  | .num x, .num y =>
    if h : x = y then isTrue (by rw [h]) else isFalse (fun hc => by cases hc; exact h rfl)
  | .str x, .str y =>
    if h : x = y then isTrue (by rw [h]) else isFalse (fun hc => by cases hc; exact h rfl)
  | .arr x, .arr y =>
    match Json.decEqList x y with
    | isTrue h => isTrue (by rw [h])
    | isFalse h => isFalse (fun hc => by cases hc; exact h rfl)
  | .obj x, .obj y =>
    match Json.decEqFields x y with
    | isTrue h => isTrue (by rw [h])
    | isFalse h => isFalse (fun hc => by cases hc; exact h rfl)
  | .null, .bool _ => isFalse (fun hc => by cases hc)
  | .null, .num _ => isFalse (fun hc => by cases hc)
  | .null, .str _ => isFalse (fun hc => by cases hc)
  | .null, .arr _ => isFalse (fun hc => by cases hc)
  | .null, .obj _ => isFalse (fun hc => by cases hc)
  | .bool _, .null => isFalse (fun hc => by cases hc)
  | .bool _, .num _ => isFalse (fun hc => by cases hc)
  | .bool _, .str _ => isFalse (fun hc => by cases hc)
  | .bool _, .arr _ => isFalse (fun hc => by cases hc)
  | .bool _, .obj _ => isFalse (fun hc => by cases hc)
  | .num _, .null => isFalse (fun hc => by cases hc)
  | .num _, .bool _ => isFalse (fun hc => by cases hc)
  | .num _, .str _ => isFalse (fun hc => by cases hc)
  | .num _, .arr _ => isFalse (fun hc => by cases hc)
  | .num _, .obj _ => isFalse (fun hc => by cases hc)
  | .str _, .null => isFalse (fun hc => by cases hc)
  | .str _, .bool _ => isFalse (fun hc => by cases hc)
  | .str _, .num _ => isFalse (fun hc => by cases hc)
  | .str _, .arr _ => isFalse (fun hc => by cases hc)
  | .str _, .obj _ => isFalse (fun hc => by cases hc)
  | .arr _, .null => isFalse (fun hc => by cases hc)
  | .arr _, .bool _ => isFalse (fun hc => by cases hc)
  | .arr _, .num _ => isFalse (fun hc => by cases hc)
  | .arr _, .str _ => isFalse (fun hc => by cases hc)
  | .arr _, .obj _ => isFalse (fun hc => by cases hc)
  | .obj _, .null => isFalse (fun hc => by cases hc)
  | .obj _, .bool _ => isFalse (fun hc => by cases hc)
  | .obj _, .num _ => isFalse (fun hc => by cases hc)
  | .obj _, .str _ => isFalse (fun hc => by cases hc)
  | .obj _, .arr _ => isFalse (fun hc => by cases hc)
termination_by structural a => a

def Json.decEqList : (a b : List Json) → Decidable (a = b)
  | [], [] => isTrue rfl
  | [], _ :: _ => isFalse (fun hc => by cases hc)
  | _ :: _, [] => isFalse (fun hc => by cases hc)
  | x :: xs, y :: ys =>
    match Json.decEq x y, Json.decEqList xs ys with
    | isTrue h1, isTrue h2 => isTrue (by rw [h1, h2])
    | isFalse h1, _ => isFalse (fun hc => by cases hc; exact h1 rfl)
    | isTrue _, isFalse h2 => isFalse (fun hc => by cases hc; exact h2 rfl)
termination_by structural a => a

def Json.decEqFields : (a b : List (String × Json)) → Decidable (a = b)
  | [], [] => isTrue rfl
  | [], _ :: _ => isFalse (fun hc => by cases hc)
  | _ :: _, [] => isFalse (fun hc => by cases hc)
  | (k1, v1) :: xs, (k2, v2) :: ys =>
    match inferInstanceAs (Decidable (k1 = k2)), Json.decEq v1 v2, Json.decEqFields xs ys with
    | isTrue hk, isTrue hv, isTrue h2 => isTrue (by rw [hk, hv, h2])
    | isFalse hk, _, _ => isFalse (fun hc => by cases hc; exact hk rfl)
    | isTrue _, isFalse hv, _ => isFalse (fun hc => by cases hc; exact hv rfl)
    | isTrue _, isTrue _, isFalse h2 => isFalse (fun hc => by cases hc; exact h2 rfl)
termination_by structural a => a

end

instance : DecidableEq Json := Json.decEq

/-- Python `d.get(key, default)` on a decoded JSON object. -/
def Json.getD (fields : List (String × Json)) (key : String) (default : Json) : Json :=
  (fields.lookup key).getD default

/-- Python truthiness of a JSON value. -/
def Json.truthy : Json → Bool
  | .null => false
  | .bool b => b
  | .num n => !(n = 0)
  | .str s => !(s = "")
  | .arr xs => !xs.isEmpty
  | .obj fs => !fs.isEmpty

/-- Decimal digit accumulator for `parseNat`. -/
def digitsVal (acc : Nat) : List Char → Option Nat
  | [] => some acc
  | c :: rest =>
    if 48 ≤ c.toNat ∧ c.toNat ≤ 57 then digitsVal (acc * 10 + (c.toNat - 48)) rest
    else Option.none

/-- A nonempty all-digit character list as a natural number. -/
def parseNat : List Char → Option Nat
  | [] => Option.none
  | cs => digitsVal 0 cs

/-- Python `int(x)` on a JSON value: integers pass through, strings of an
integer literal (with optional sign) parse, anything else raises. -/
def Json.toInt : Json → Option Int
  | .num n => some n
  | .str s =>
    match s.data with
    | c :: rest =>
      if c = Char.ofNat 45 then (parseNat rest).map (fun n => -(n : Int))
      else (parseNat (c :: rest)).map (fun n => (n : Int))
    | [] => Option.none
  | _ => none

/-- The error taxonomy of `cclib/errors.py`: one tag per exception class. -/
inductive ErrorKind where
  | exchangeError
  | exchangeInMaintain
  | authenticationError
  | permissionDenied
  | outOfRateLimitWarning
  | outOfRateLimitError
  | argumentsRequired
  | argumentsError
  | serviceTimeout
  | networkError
  | connectionError
  | timeoutError
  | responseError
  | parseJsonError
deriving DecidableEq, Repr

/-- The `payload` attribute of a raised `BaseError`: absent, the decoded
body object, or the raw response bytes (`rsp.content`). -/
inductive Payload where
  | none : Payload
  | json (j : Json) : Payload
  | raw (content : String) : Payload

instance : DecidableEq Payload := fun a b =>
  match a, b with
  | .none, .none => isTrue rfl
  | .json x, .json y =>
    match Json.decEq x y with
    | isTrue h => isTrue (by rw [h])
    | isFalse h => isFalse (fun hc => by cases hc; exact h rfl)
  | .raw x, .raw y =>
    if h : x = y then isTrue (by rw [h]) else isFalse (fun hc => by cases hc; exact h rfl)
  | .none, .json _ => isFalse (fun hc => by cases hc)
  | .none, .raw _ => isFalse (fun hc => by cases hc)
  | .json _, .none => isFalse (fun hc => by cases hc)
  | .json _, .raw _ => isFalse (fun hc => by cases hc)
  | .raw _, .none => isFalse (fun hc => by cases hc)
  | .raw _, .json _ => isFalse (fun hc => by cases hc)

/-- The constructor arguments of `errors.BaseError(error_msg, error_code,
status_code, payload)`.  `msg` and `code` are arbitrary Python values in
the source (ints and strings both occur), so both are `Json`. -/
structure ErrorRecord where
  kind : ErrorKind
  msg : Json
  code : Json
  status : Int
  payload : Payload

instance : DecidableEq ErrorRecord := fun a b =>
  match a, b with
  | ⟨k1, m1, c1, s1, p1⟩, ⟨k2, m2, c2, s2, p2⟩ =>
    match inferInstanceAs (Decidable (k1 = k2)), inferInstanceAs (Decidable (m1 = m2)),
        inferInstanceAs (Decidable (c1 = c2)), inferInstanceAs (Decidable (s1 = s2)),
        inferInstanceAs (Decidable (p1 = p2)) with
    | isTrue h1, isTrue h2, isTrue h3, isTrue h4, isTrue h5 =>
      isTrue (by rw [h1, h2, h3, h4, h5])
    | isFalse h1, _, _, _, _ => isFalse (fun hc => by cases hc; exact h1 rfl)
    | isTrue _, isFalse h2, _, _, _ => isFalse (fun hc => by cases hc; exact h2 rfl)
    | isTrue _, isTrue _, isFalse h3, _, _ => isFalse (fun hc => by cases hc; exact h3 rfl)
    | isTrue _, isTrue _, isTrue _, isFalse h4, _ => isFalse (fun hc => by cases hc; exact h4 rfl)
    | isTrue _, isTrue _, isTrue _, isTrue _, isFalse h5 =>
      isFalse (fun hc => by cases hc; exact h5 rfl)

/-- Result of running a piece of the library: a normal return value, a
raised library error (`errors.BaseError` subclass), or an uncaught plain
Python exception identified by class name and message. -/
inductive PyOutcome (α : Type) where
  | ok (a : α) : PyOutcome α
  | raised (e : ErrorRecord) : PyOutcome α
  | pyexc (name : String) (msg : String) : PyOutcome α

instance {α : Type} [DecidableEq α] : DecidableEq (PyOutcome α) := fun a b =>
  match a, b with
  | .ok x, .ok y =>
    match inferInstanceAs (Decidable (x = y)) with
    | isTrue h => isTrue (by rw [h])
    | isFalse h => isFalse (fun hc => by cases hc; exact h rfl)
  | .raised x, .raised y =>
    match inferInstanceAs (Decidable (x = y)) with
    | isTrue h => isTrue (by rw [h])
    | isFalse h => isFalse (fun hc => by cases hc; exact h rfl)
  | .pyexc n1 m1, .pyexc n2 m2 =>
    match inferInstanceAs (Decidable (n1 = n2)), inferInstanceAs (Decidable (m1 = m2)) with
    | isTrue h1, isTrue h2 => isTrue (by rw [h1, h2])
    | isFalse h1, _ => isFalse (fun hc => by cases hc; exact h1 rfl)
    | isTrue _, isFalse h2 => isFalse (fun hc => by cases hc; exact h2 rfl)
  | .ok _, .raised _ => isFalse (fun hc => by cases hc)
  | .ok _, .pyexc _ _ => isFalse (fun hc => by cases hc)
  | .raised _, .ok _ => isFalse (fun hc => by cases hc)
  | .raised _, .pyexc _ _ => isFalse (fun hc => by cases hc)
  | .pyexc _ _, .ok _ => isFalse (fun hc => by cases hc)
  | .pyexc _ _, .raised _ => isFalse (fun hc => by cases hc)

/-- The kind of the error an outcome raised, if it raised one. -/
def PyOutcome.errKind {α : Type} : PyOutcome α → Option ErrorKind
  | .raised e => some e.kind
  | _ => Option.none

/-- The payload of the error an outcome raised, if it raised one. -/
def PyOutcome.errPayload {α : Type} : PyOutcome α → Option Payload
  | .raised e => some e.payload
  | _ => Option.none

/-- Python string concatenation `pre + m` where `m` came out of a JSON
body: defined only when `m` is a string, a `TypeError` otherwise. -/
def strCat {α : Type} (pre : String) (m : Json) (k : String → PyOutcome α) : PyOutcome α :=
  match m with
  | .str s => k (pre ++ s)
  | _ => .pyexc "TypeError" "can only concatenate str to str"

/-! ## Canonical query-string construction (`urllib.parse.urlencode`) -/

/-- Uppercase hex digit of a value below 16. -/
def hexDigit (n : Nat) : Char :=
  if n < 10 then Char.ofNat (48 + n) else Char.ofNat (55 + n)

/-- UTF-8 encoding of one character, as byte values. -/
def utf8Bytes (c : Char) : List Nat :=
  let n := c.toNat
  if n < 128 then [n]
  else if n < 2048 then [192 + n / 64, 128 + n % 64]
  else if n < 65536 then [224 + n / 4096, 128 + (n / 64) % 64, 128 + n % 64]
  else [240 + n / 262144, 128 + (n / 4096) % 64, 128 + (n / 64) % 64, 128 + n % 64]

/-- The characters `urllib.parse.quote` never escapes: ASCII letters,
digits and `_.-~`. -/
def isSafeByte (b : Nat) : Bool :=
  (65 ≤ b && b ≤ 90) || (97 ≤ b && b ≤ 122) || (48 ≤ b && b ≤ 57) ||
    b = 95 || b = 46 || b = 45 || b = 126

/-- Encoding of one byte under `urllib.parse.quote_plus`: safe bytes pass through,
space becomes `+`, everything else becomes `%XX`. -/
def quoteByte (b : Nat) : String :=
  if isSafeByte b then String.singleton (Char.ofNat b)
  else if b = 32 then "+"
  else String.singleton (Char.ofNat 37) ++
    String.singleton (hexDigit (b / 16)) ++ String.singleton (hexDigit (b % 16))

/-- Python `urllib.parse.quote_plus` over the UTF-8 bytes of a string. -/
def quotePlus (s : String) : String :=
  String.join ((s.data.flatMap utf8Bytes).map quoteByte)

/-- Python `urllib.parse.urlencode` on a sequence of key/value pairs: the
quoted `k=v` fragments joined by `&`. -/
def urlencode : List (String × String) → String
  | [] => ""
  | [kv] => quotePlus kv.1 ++ "=" ++ quotePlus kv.2
  | kv :: rest => quotePlus kv.1 ++ "=" ++ quotePlus kv.2 ++ "&" ++ urlencode rest

/-! ## Python `sorted(params.items(), key=lambda d: d[0])` -/

/-- Python string comparison: lexicographic on code points. -/
def charListLe : List Char → List Char → Bool
  | [], _ => true
  | _ :: _, [] => false
  | a :: as, b :: bs =>
    if a.toNat < b.toNat then true
    else if b.toNat < a.toNat then false
    else charListLe as bs

/-- Comparison `a <= b` on Python strings. -/
def strLe (a b : String) : Bool := charListLe a.data b.data

/-- Stable insertion of a pair into a key-sorted list. -/
def insertParam (x : String × String) : List (String × String) → List (String × String)
  | [] => [x]
  | y :: ys => if strLe x.1 y.1 then x :: y :: ys else y :: insertParam x ys

/-- Python `sorted(params.items(), key=lambda d: d[0], reverse=False)`: a stable
sort of the pairs by key. -/
def sortParams : List (String × String) → List (String × String)
  | [] => []
  | x :: xs => insertParam x (sortParams xs)

/-! ## Signers -/

namespace Bybit

/-- Signer `BaseBybitApi.generate_signature`: sort the parameters by key,
URL-encode, HMAC-SHA256 with the secret key, hex digest.  `hm` stands
for `hmac.new(secret.encode(), payload.encode(), sha256).hexdigest()`.
The `method` argument of the source function is unused there and is
omitted. -/
def generate_signature (hm : String → String → String) (secretKey : String)
    (params : List (String × String)) : String :=
  hm secretKey (urlencode (sortParams params))

/-- The `auth:` block of `BaseBybitApi.request` (lines 41-47): inject
`timestamp` (current ms time) and `api_key` when absent, then attach the
signature as `sign`.  Parameter mappings are association lists in
insertion order, mirroring Python dict order. -/
def signParams (hm : String → String → String) (accessKey secretKey nowMs : String)
    (params : List (String × String)) : List (String × String) :=
  let params :=
    if (params.lookup "timestamp").isNone then params ++ [("timestamp", nowMs)] else params
  let params :=
    if (params.lookup "api_key").isNone then params ++ [("api_key", accessKey)] else params
  params ++ [("sign", generate_signature hm secretKey params)]

end Bybit

namespace Huobi

/-- Signer `HuobiApiBase.generate_signature` for a base-relative request path:
the canonical payload is `method`, host, path and the sorted URL-encoded
parameters joined by newlines; `hm` stands for HMAC-SHA256 with base64
output.  (For an absolute URL the source recomputes `host_url` and
`request_path` from the URL before this point; the caller supplies them
here.) -/
def generate_signature (hm : String → String → String) (secretKey : String)
    (method hostUrl requestPath : String) (params : List (String × String)) : String :=
  hm secretKey
    (String.intercalate "\n" [method, hostUrl, requestPath, urlencode (sortParams params)])

end Huobi

/-! ## Transport (`cclib/http_session.py`) -/

namespace HttpSession

/-- The `proxies` dict of a `requests.Session`, restricted to the two
keys this module touches. -/
structure Proxies where
  http : Option String
  https : Option String
deriving DecidableEq, Repr

/-- A cached session, as far as this module is concerned. -/
structure Session where
  proxies : Proxies
deriving DecidableEq, Repr

/-- The module state: `__GLOBAL_SESSIONS` (keyed by `base_url`, which may
be Python `None`) in insertion order, and `__PROXY`. -/
structure State where
  sessions : List (Option String × Session)
  proxy : Option String
deriving DecidableEq, Repr

/-- Python truthiness of the `__PROXY` value (`None` and `""` are falsy). -/
def truthy : Option String → Bool
  | Option.none => false
  | some s => !(s = "")

/-- Transport `get_session(base_url)`: return the cached session, creating one
(with the current proxy applied when truthy) if absent. -/
def get_session (st : State) (base_url : Option String) : Session × State :=
  match st.sessions.lookup base_url with
  | some s => (s, st)
  | Option.none =>
    let s : Session :=
      if truthy st.proxy then ⟨⟨st.proxy, st.proxy⟩⟩ else ⟨⟨Option.none, Option.none⟩⟩
    (s, ⟨st.sessions ++ [(base_url, s)], st.proxy⟩)

/-- One loop iteration of `set_proxy`: with a truthy proxy both entries
are assigned; otherwise `del sess.proxies['http']` and
`del sess.proxies['https']` run, each raising `KeyError` when the key is
absent. -/
def applyProxy (p : Option String) (s : Session) : PyOutcome Session :=
  if truthy p then .ok ⟨⟨p, p⟩⟩
  else
    match s.proxies.http with
    | Option.none => .pyexc "KeyError" "http"
    | some _ =>
      match s.proxies.https with
      | Option.none => .pyexc "KeyError" "https"
      | some _ => .ok ⟨⟨Option.none, Option.none⟩⟩

/-- Helper folding `applyProxy` over the cached sessions in order. -/
def applyAll (p : Option String) :
    List (Option String × Session) → PyOutcome (List (Option String × Session))
  | [] => .ok []
  | (k, s) :: rest =>
    match applyProxy p s with
    | .ok s2 =>
      match applyAll p rest with
      | .ok rest2 => .ok ((k, s2) :: rest2)
      | .raised e => .raised e
      | .pyexc n m => .pyexc n m
    | .raised e => .raised e
    | .pyexc n m => .pyexc n m

/-- Transport `set_proxy(proxy)`: store the new `__PROXY` and reconfigure every
cached session.  When the escaping `KeyError` aborts the loop the
partially mutated global state is not observable through this model's
return value; the claims only concern the normal-return case and the
fact that an exception escapes. -/
def set_proxy (st : State) (p : Option String) : PyOutcome State :=
  match applyAll p st.sessions with
  | .ok sessions2 => .ok ⟨sessions2, p⟩
  | .raised e => .raised e
  | .pyexc n m => .pyexc n m

/-! ## Response classifiers -/

namespace Bybit

/-- The raising tail of `BaseBybitApi.request` (lines 82-86): status 403
first, then native codes 10003/10018, then generic `ExchangeError`. -/
def raiseTail (status : Int) (code msg : Json) (payload : Payload) : PyOutcome Json :=
  if status = 403 then
    strCat "请求超限：" msg fun m =>
      .raised ⟨.outOfRateLimitError, .str m, code, status, payload⟩
  else if code = .num 10003 ∨ code = .num 10018 then
    strCat "请求超限：" msg fun m =>
      .raised ⟨.outOfRateLimitError, .str m, code, status, payload⟩
  else
    .raised ⟨.exchangeError, msg, code, status, payload⟩

/-- The response handling of `BaseBybitApi.request` (lines 64-86).
`decoded` is the result of `rsp.json()` (`none` when it raised) and
`content` is the raw body.  A 200 status returns the decoded body at
once; otherwise a dict body with `ret_code == 0` is returned as an
embedded success, and every other case raises through `raiseTail`. -/
def classify (status : Int) (decoded : Option Json) (content : String) : PyOutcome Json :=
  match decoded with
  | some obj =>
    if status = 200 then .ok obj
    else
      match obj with
      | .obj fields =>
        let code := Json.getD fields "ret_code" (.num (-1))
        let msg := Json.getD fields "ret_msg" (.str "unknown error")
        if code = .num 0 then .ok obj
        else raiseTail status code msg (.json obj)
      | j => raiseTail status (.num (-1)) (.str "unknown error") (.json j)
  | Option.none =>
    raiseTail status (.num (-1))
      (.str ("parse message json error. content:" ++ content)) Payload.none

end Bybit

namespace Binance

/-- The raising tail of `BinanceApiBase.request` (lines 77-99): rate
limit statuses 429/418 first, then the native-code ranges.  The range
comparisons require an integral code; a non-integral code there raises
`TypeError`, as the Python comparison would. -/
def raiseTail (status : Int) (code msg : Json) (payload : Payload) : PyOutcome Json :=
  if status = 429 then
    strCat "即将超限:" msg fun m =>
      .raised ⟨.outOfRateLimitWarning, .str m, code, status, payload⟩
  else if status = 418 then
    strCat "已经超限" msg fun m =>
      .raised ⟨.outOfRateLimitError, .str m, code, status, payload⟩
  else
    match code with
    | .num c =>
      if -1099 ≤ c ∧ c ≤ -1000 then
        if c = -1003 then .raised ⟨.outOfRateLimitError, msg, code, status, payload⟩
        else if c = -1007 then .raised ⟨.serviceTimeout, msg, code, status, payload⟩
        else if c = -1022 then .raised ⟨.authenticationError, msg, code, status, payload⟩
        else if c = -1016 then .raised ⟨.exchangeInMaintain, msg, code, status, payload⟩
        else .raised ⟨.exchangeError, msg, code, status, payload⟩
      else if -1199 ≤ c ∧ c ≤ -1100 then
        .raised ⟨.argumentsError, msg, code, status, payload⟩
      else if -2099 ≤ c ∧ c ≤ -2000 then
        if c = -2014 ∨ c = -2015 then
          .raised ⟨.authenticationError, msg, code, status, payload⟩
        else .raised ⟨.exchangeError, msg, code, status, payload⟩
      else .raised ⟨.exchangeError, msg, code, status, payload⟩
    | _ => .pyexc "TypeError" "comparison not supported between instances"

/-- The response handling of `BinanceApiBase.request` (lines 61-99).  A
200 status returns the decoded body; a non-dict body hits the
`rsp_obj.dumps()` slip, whose `AttributeError` is swallowed by the
enclosing `except` and turned into the parse-error locals (body `None`,
code -1); there is no embedded-success check. -/
def classify (status : Int) (decoded : Option Json) (content : String) : PyOutcome Json :=
  match decoded with
  | some obj =>
    if status = 200 then .ok obj
    else
      match obj with
      | .obj fields =>
        let code := Json.getD fields "code" (.num (-1))
        let msg := Json.getD fields "msg" (.str "unknown")
        raiseTail status code msg (.json obj)
      | _ =>
        raiseTail status (.num (-1))
          (.str ("parse message json error. content:" ++ content)) Payload.none
  | Option.none =>
    raiseTail status (.num (-1))
      (.str ("parse message json error. content:" ++ content)) Payload.none

end Binance

namespace Ftx

/-- The response handling of `FtxApi.request` (lines 50-74): 200 returns
the body; a dict body with truthy `success` is an embedded success; a
non-dict body hits the `rsp_obj.dumps()` slip handled as a parse error;
status 429 raises `OutOfRateLimitError`, everything else the generic
`ExchangeError`. -/
def classify (status : Int) (decoded : Option Json) (content : String) : PyOutcome Json :=
  let tail : Int → Json → Json → Payload → PyOutcome Json := fun st code msg payload =>
    if st = 429 then
      strCat "请求超限：" msg fun m =>
        .raised ⟨.outOfRateLimitError, .str m, code, st, payload⟩
    else .raised ⟨.exchangeError, msg, code, st, payload⟩
  match decoded with
  | some obj =>
    if status = 200 then .ok obj
    else
      match obj with
      | .obj fields =>
        let success := Json.getD fields "success" (.bool false)
        let code : Json := if success.truthy then .num 0 else .num (-1)
        let msg := Json.getD fields "error" (.str "unknown error")
        if success.truthy then .ok obj
        else tail status code msg (.json obj)
      | _ =>
        tail status (.num (-1))
          (.str ("parse message json error. content:" ++ content)) Payload.none
  | Option.none =>
    tail status (.num (-1))
      (.str ("parse message json error. content:" ++ content)) Payload.none

end Ftx

namespace Huobi

/-- The response handling of `HuobiApiBase.request` (lines 81-103).
Success is `some body` (an explicit `return rsp_obj`); the dict body
with neither a `status` nor an `error` key falls off the end of the
function, which in Python returns `None` — modelled as `.ok none`.
`reason` is `rsp.reason`.  On decode failure the raise is
`ExchangeError(rsp.status_code, rsp.reason, status_code=...)`, carrying
no payload. -/
def classify (status : Int) (reason : String) (decoded : Option Json) :
    PyOutcome (Option Json) :=
  match decoded with
  | Option.none =>
    .raised ⟨.exchangeError, .num status, .str reason, status, Payload.none⟩
  | some obj =>
    match obj with
    | .obj fields =>
      match fields.lookup "status" with
      | some s =>
        if s = .str "ok" then .ok (some obj)
        else if s = .str "maintain" then
          .raised ⟨.exchangeInMaintain, Json.getD fields "error" (.str "exchange in maintain"),
            .str "maintain", status, .json obj⟩
        else
          let em := Json.getD fields "err-msg" (.str "")
          let em := if em = .str "" then Json.getD fields "err_msg" (.str "unknown error") else em
          .raised ⟨.exchangeError, em, s, status, .json obj⟩
      | Option.none =>
        match fields.lookup "error" with
        | some errv => .raised ⟨.exchangeError, errv, .num status, -1, .json obj⟩
        | Option.none => .ok Option.none
    | j => .raised ⟨.exchangeError, .str "unknown", .num (-1), -1, .json j⟩

/-- The method dispatch of `HuobiApiBase.request` (lines 57-63): any verb
other than GET or POST raises a plain `ValueError` before the session
request is issued, so the response inputs are irrelevant in that case. -/
def request (method : String) (status : Int) (reason : String) (decoded : Option Json) :
    PyOutcome (Option Json) :=
  if method = "GET" ∨ method = "POST" then classify status reason decoded
  else .pyexc "ValueError" ("unsupported method: " ++ method)

end Huobi

/-- The two concrete OKX API versions (`OkexApi` is v5, older subclasses
are v3); `OkexApiBase.api_version` itself is abstract. -/
inductive OkexVersion where
  | v5
  | v3
deriving DecidableEq, Repr

namespace Okex

/-- The response handling of `OkexApiBase.request` (lines 82-114).
Decode failure raises `ExchangeError` with the raw body as payload.  In
the v5 branch a dict with a `code` key goes through `int(...)` (a
non-numeric code raises `ValueError`) and a mandatory `msg` lookup (a
missing key raises `KeyError`); codes 50002/50001/50011 raise
`TimeoutError`/`ExchangeInMaintain`/`OutOfRateLimitError` with the code
and message passed positionally as `error_msg`/`error_code` and no
payload.  The v3 branch returns any 200 body and otherwise raises
`ExchangeError`; its `rsp_obj.get` on a non-dict body would be an
`AttributeError`. -/
def classify (version : OkexVersion) (status : Int) (decoded : Option Json)
    (content : String) : PyOutcome Json :=
  match decoded with
  | Option.none =>
    .raised ⟨.exchangeError, .str "parse response json error", .num (-1), status, .raw content⟩
  | some obj =>
    match version with
    | .v5 =>
      match obj with
      | .obj fields =>
        match fields.lookup "code" with
        | some codev =>
          match Json.toInt codev with
          | Option.none => .pyexc "ValueError" "invalid literal for int"
          | some rc =>
            match fields.lookup "msg" with
            | Option.none => .pyexc "KeyError" "msg"
            | some msg =>
              if rc = 0 then .ok obj
              else if rc = 50002 then
                .raised ⟨.timeoutError, .num rc, msg, -1, Payload.none⟩
              else if rc = 50001 then
                .raised ⟨.exchangeInMaintain, .num rc, msg, -1, Payload.none⟩
              else if rc = 50011 then
                .raised ⟨.outOfRateLimitError, .num rc, msg, -1, Payload.none⟩
              else .raised ⟨.exchangeError, msg, .num rc, status, .json obj⟩
        | Option.none =>
          match fields.lookup "msg" with
          | some m => .raised ⟨.exchangeError, m, .num status, status, .json obj⟩
          | Option.none =>
            .raised ⟨.exchangeError, .str "未知的消息格式", .num (-1), status, .json obj⟩
      | j => .raised ⟨.exchangeError, .str "unknown data type", .num (-1), status, .json j⟩
    | .v3 =>
      if status = 200 then .ok obj
      else
        match obj with
        | .obj fields =>
          .raised ⟨.exchangeError, Json.getD fields "error_message" (.str "unknown error"),
            Json.getD fields "code" (.num (-1)), status, .json obj⟩
        | _ => .pyexc "AttributeError" "object has no attribute get"

end Okex

namespace Bitmake

/-- The response handling of `BitmakeApi.request` (lines 69-86): decode
failure (including the `rsp_obj.dumps()` slip on a non-dict body, caught
by the same `except`) raises `ExchangeError` with the raw body as
payload; status 429 raises `OutOfRateLimitError`; anything else the
generic `ExchangeError`. -/
def classify (status : Int) (decoded : Option Json) (content : String) : PyOutcome Json :=
  let parseErr : PyOutcome Json :=
    .raised ⟨.exchangeError, .str "parse response json error", .num (-1), status, .raw content⟩
  match decoded with
  | Option.none => parseErr
  | some obj =>
    if status = 200 then .ok obj
    else
      match obj with
      | .obj fields =>
        let code := Json.getD fields "code" (.num (-1))
        let msg := Json.getD fields "msg" (.str "unknown")
        if status = 429 then
          strCat "请求超限：" msg fun m =>
            .raised ⟨.outOfRateLimitError, .str m, code, status, .json obj⟩
        else .raised ⟨.exchangeError, msg, code, status, .json obj⟩
      | _ => parseErr

end Bitmake

namespace Backpack

/-- What the dispatched HTTP call produced: a response (status, the
would-be result of `response.json()`, raw content), a timeout, or
another transport-level `RequestException`. -/
inductive HttpResult where
  | resp (status : Int) (decoded : Option Json) (content : String)
  | timeout
  | reqexc

/-- Request path of `BackpackApi.request` after parameter preparation (lines 82-96).
For GET/POST: `response.raise_for_status()` turns any 4xx/5xx status
into an `HTTPError`, which the `except RequestException` clause converts
to `errors.ConnectionError`; otherwise the decoded JSON is returned, a
decode failure falling to the final `except Exception` clause as
`ExchangeError`.  For any other verb the source's
`raise errors.InvalidMethod(method)` references a class that does not
exist in `cclib/errors.py`, so an `AttributeError` is raised inside the
`try` and the final clause re-raises it as `ExchangeError`; no network
dispatch happens, so the outcome ignores `h`. -/
def request (method : String) (h : HttpResult) : PyOutcome Json :=
  if method = "GET" ∨ method = "POST" then
    match h with
    | .resp status decoded _ =>
      if 400 ≤ status ∧ status < 600 then
        .raised ⟨.connectionError, .str "HTTPError", .num (-1), -1, Payload.none⟩
      else
        match decoded with
        | some obj => .ok obj
        | Option.none =>
          .raised ⟨.exchangeError, .str "JSONDecodeError", .num (-1), -1, Payload.none⟩
    | .timeout => .raised ⟨.timeoutError, .str "Timeout", .num (-1), -1, Payload.none⟩
    | .reqexc => .raised ⟨.connectionError, .str "RequestException", .num (-1), -1, Payload.none⟩
  else
    .raised ⟨.exchangeError,
      .str "module cclib.errors has no attribute InvalidMethod", .num (-1), -1, Payload.none⟩

end Backpack

/-! ## Properties of the canonical sort -/

theorem charListLe_trans : ∀ {a b c : List Char},
    charListLe a b = true → charListLe b c = true → charListLe a c = true
  | [], _, _, _, _ => rfl
  | _ :: _, [], _, hab, _ => by simp [charListLe] at hab
  | _ :: _, _ :: _, [], _, hbc => by simp [charListLe] at hbc
  | a :: as, b :: bs, c :: cs, hab, hbc => by
    simp only [charListLe] at hab hbc ⊢
    rcases Nat.lt_trichotomy a.toNat c.toNat with h | h | h
    · simp [h]
    · rw [if_neg (by omega), if_neg (by omega)]
      rcases Nat.lt_trichotomy a.toNat b.toNat with h1 | h1 | h1
      · rcases Nat.lt_trichotomy b.toNat c.toNat with h2 | h2 | h2
        · omega
        · omega
        · rw [if_neg (by omega), if_pos (by omega)] at hbc; exact absurd hbc (by simp)
      · rw [if_neg (by omega), if_neg (by omega)] at hab
        rw [if_neg (by omega), if_neg (by omega)] at hbc
        exact charListLe_trans hab hbc
      · rw [if_neg (by omega), if_pos (by omega)] at hab; exact absurd hab (by simp)
    · rcases Nat.lt_trichotomy a.toNat b.toNat with h1 | h1 | h1
      · rw [if_neg (by omega), if_pos (by omega)] at hbc; exact absurd hbc (by simp)
      · rw [if_neg (by omega), if_pos (by omega)] at hbc; exact absurd hbc (by simp)
      · rw [if_neg (by omega), if_pos (by omega)] at hab; exact absurd hab (by simp)

theorem charListLe_total : ∀ a b : List Char, charListLe a b = true ∨ charListLe b a = true
  | [], _ => Or.inl rfl
  | _ :: _, [] => Or.inr rfl
  | a :: as, b :: bs => by
    simp only [charListLe]
    rcases Nat.lt_trichotomy a.toNat b.toNat with h | h | h
    · left; simp [h]
    · rw [if_neg (by omega), if_neg (by omega), if_neg (by omega), if_neg (by omega)]
      exact charListLe_total as bs
    · right; simp [h]

theorem charListLe_antisymm : ∀ {a b : List Char},
    charListLe a b = true → charListLe b a = true → a = b
  | [], [], _, _ => rfl
  | [], _ :: _, _, hba => by simp [charListLe] at hba
  | _ :: _, [], hab, _ => by simp [charListLe] at hab
  | a :: as, b :: bs, hab, hba => by
    simp only [charListLe] at hab hba
    rcases Nat.lt_trichotomy a.toNat b.toNat with h | h | h
    · rw [if_neg (by omega), if_pos (by omega)] at hba; exact absurd hba (by simp)
    · rw [if_neg (by omega), if_neg (by omega)] at hab hba
      have hchar : a = b := Char.eq_of_val_eq (by
        have : a.val.toNat = b.val.toNat := h
        exact UInt32.eq_of_toBitVec_eq (BitVec.eq_of_toNat_eq this))
      rw [hchar, charListLe_antisymm hab hba]
    · rw [if_neg (by omega), if_pos (by omega)] at hab; exact absurd hab (by simp)

theorem strLe_trans {a b c : String} (h1 : strLe a b = true) (h2 : strLe b c = true) :
    strLe a c = true :=
  charListLe_trans h1 h2

theorem strLe_total (a b : String) : strLe a b = true ∨ strLe b a = true :=
  charListLe_total a.data b.data

theorem strLe_antisymm {a b : String} (h1 : strLe a b = true) (h2 : strLe b a = true) :
    a = b := by
  cases a; cases b
  exact congrArg String.mk (charListLe_antisymm h1 h2)

/-- The pairs of a parameter list are in weakly increasing key order. -/
def KeySorted (l : List (String × String)) : Prop :=
  List.Pairwise (fun x y => strLe x.1 y.1 = true) l

theorem insertParam_perm (x : String × String) :
    ∀ l : List (String × String), List.Perm (insertParam x l) (x :: l)
  | [] => List.Perm.refl _
  | y :: ys => by
    simp only [insertParam]
    by_cases h : strLe x.1 y.1 = true
    · rw [if_pos h]
    · rw [if_neg h]
      exact ((insertParam_perm x ys).cons y).trans (List.Perm.swap x y ys)

theorem sortParams_perm : ∀ l : List (String × String), List.Perm (sortParams l) l
  | [] => List.Perm.refl _
  | x :: xs => by
    simp only [sortParams]
    exact (insertParam_perm x (sortParams xs)).trans ((sortParams_perm xs).cons x)

theorem insertParam_sorted (x : String × String) :
    ∀ {l : List (String × String)}, KeySorted l → KeySorted (insertParam x l)
  | [], _ => List.pairwise_singleton _ _
  | y :: ys, h => by
    rcases List.pairwise_cons.mp h with ⟨hy, hys⟩
    simp only [insertParam]
    by_cases hxy : strLe x.1 y.1 = true
    · rw [if_pos hxy]
      refine List.pairwise_cons.mpr ⟨?_, h⟩
      intro z hz
      rcases List.mem_cons.mp hz with hz | hz
      · rw [hz]; exact hxy
      · exact strLe_trans hxy (hy z hz)
    · rw [if_neg hxy]
      have hyx : strLe y.1 x.1 = true := (strLe_total x.1 y.1).resolve_left hxy
      refine List.pairwise_cons.mpr ⟨?_, insertParam_sorted x hys⟩
      intro z hz
      rcases List.mem_cons.mp ((insertParam_perm x ys).mem_iff.mp hz) with hz | hz
      · rw [hz]; exact hyx
      · exact hy z hz

theorem sortParams_sorted : ∀ l : List (String × String), KeySorted (sortParams l)
  | [] => List.Pairwise.nil
  | x :: xs => insertParam_sorted x (sortParams_sorted xs)

/-- A stable key-sort is insensitive to the input's insertion order when
the keys are distinct: any two permutations of the same parameter
mapping sort to the same list. -/
theorem sortParams_eq_of_perm {ps qs : List (String × String)} (hperm : List.Perm ps qs)
    (hnd : (ps.map Prod.fst).Nodup) : sortParams ps = sortParams qs := by
  have hsymm : ∀ {x y : String × String}, x.1 ≠ y.1 → y.1 ≠ x.1 := fun h e => h e.symm
  haveI : IsAntisymm (String × String)
      (fun x y => strLe x.1 y.1 = true ∧ x.1 ≠ y.1) :=
    ⟨fun _ _ hab hba => (hab.2 (strLe_antisymm hab.1 hba.1)).elim⟩
  have hndp : List.Pairwise (fun x y : String × String => x.1 ≠ y.1) ps :=
    (List.pairwise_map).mp hnd
  have hndq : List.Pairwise (fun x y : String × String => x.1 ≠ y.1) qs :=
    (hperm.pairwise_iff hsymm).mp hndp
  have hp : List.Pairwise (fun x y : String × String => x.1 ≠ y.1) (sortParams ps) :=
    ((sortParams_perm ps).pairwise_iff hsymm).mpr hndp
  have hq : List.Pairwise (fun x y : String × String => x.1 ≠ y.1) (sortParams qs) :=
    ((sortParams_perm qs).pairwise_iff hsymm).mpr hndq
  refine List.eq_of_perm_of_sorted
    (r := fun x y : String × String => strLe x.1 y.1 = true ∧ x.1 ≠ y.1)
    (((sortParams_perm ps).trans hperm).trans (sortParams_perm qs).symm) ?_ ?_
  · exact (sortParams_sorted ps).and hp
  · exact (sortParams_sorted qs).and hq

/-! ## Claims -/

/-- The `ret_msg`-style field under `key`, when present, is a string
(Python would raise `TypeError` when concatenating a non-string). -/
def msgIsStr (fields : List (String × Json)) (key : String) : Bool :=
  match fields.lookup key with
  | some (Json.str _) => true
  | some _ => false
  | Option.none => true

/-- C1 (counterexample): a Bybit response with HTTP status 200 and body
`ret_code: 10003` is returned as a success — `status_code == 200`
short-circuits before any `ret_code` inspection — so it does not raise
`OutOfRateLimitError` as claimed. -/
theorem bybit_status200_rate_limit_code_returns_success :
    Bybit.classify 200 (some (.obj [("ret_code", .num 10003)])) "" =
      .ok (.obj [("ret_code", .num 10003)]) := by
  decide

/-- C1 (amended): only for a non-200 status does a Bybit body with
`ret_code = 10003` raise `OutOfRateLimitError` (provided `ret_msg`, when
present, is a string, so the message concatenation succeeds). -/
theorem bybit_rate_limit_code_non200_raises
    (status : Int) (fields : List (String × Json)) (content : String)
    (hs : status ≠ 200)
    (hcode : fields.lookup "ret_code" = some (.num 10003))
    (hmsg : msgIsStr fields "ret_msg" = true) :
    (Bybit.classify status (some (.obj fields)) content).errKind =
      some .outOfRateLimitError := by
  simp only [Bybit.classify, if_neg hs, Json.getD, hcode, Option.getD_some]
  have h0 : (Json.num 10003) ≠ (.num 0) := by decide
  rw [if_neg h0]
  simp only [Bybit.raiseTail]
  unfold msgIsStr at hmsg
  by_cases h403 : status = 403
  · rw [if_pos h403]
    match hm : fields.lookup "ret_msg" with
    | some (Json.str s) => simp [hm, strCat, PyOutcome.errKind]
    | some (Json.null) | some (Json.bool _) | some (Json.num _)
    | some (Json.arr _) | some (Json.obj _) => rw [hm] at hmsg; simp at hmsg
    | Option.none => simp [hm, strCat, PyOutcome.errKind]
  · rw [if_neg h403]
    rw [if_pos (Or.inl (by trivial))]
    match hm : fields.lookup "ret_msg" with
    | some (Json.str s) => simp [hm, strCat, PyOutcome.errKind]
    | some (Json.null) | some (Json.bool _) | some (Json.num _)
    | some (Json.arr _) | some (Json.obj _) => rw [hm] at hmsg; simp at hmsg
    | Option.none => simp [hm, strCat, PyOutcome.errKind]

/-- C1 (witness for the amended theorem), at status 400. -/
theorem bybit_rate_limit_code_non200_raises_witness :
    (Bybit.classify 400 (some (.obj [("ret_code", .num 10003), ("ret_msg", .str "too many")]))
      "").errKind = some .outOfRateLimitError :=
  bybit_rate_limit_code_non200_raises 400 [("ret_code", .num 10003), ("ret_msg", .str "too many")]
    "" (by decide) (by decide) (by decide)

/-- C2 (counterexample): an OKX response whose body fails to decode
raises a plain `ExchangeError` — the library's `ParseJsonError` class is
never raised by any classifier. -/
theorem okex_parse_failure_not_parse_json_error :
    (Okex.classify .v5 500 Option.none "oops").errKind = some .exchangeError ∧
      (Okex.classify .v5 500 Option.none "oops").errKind ≠ some .parseJsonError := by
  constructor
  · decide
  · decide

/-- C2 (amended): whenever the response body cannot be decoded as JSON
the call raises, but the error kind is `ExchangeError`, not
`ParseJsonError`: OKX (both API versions) and Bitmake raise
`ExchangeError` carrying the raw body bytes as payload regardless of
HTTP status, while Binance classifies by status first (429 and 418
become the rate-limit kinds) and carries no payload. -/
theorem parse_failure_raises_exchange_error
    (version : OkexVersion) (status : Int) (content : String) :
    Okex.classify version status Option.none content =
      .raised ⟨.exchangeError, .str "parse response json error", .num (-1), status,
        .raw content⟩ ∧
    Bitmake.classify status Option.none content =
      .raised ⟨.exchangeError, .str "parse response json error", .num (-1), status,
        .raw content⟩ ∧
    (Binance.classify status Option.none content).errKind =
      some (if status = 429 then .outOfRateLimitWarning
        else if status = 418 then .outOfRateLimitError
        else .exchangeError) ∧
    (Binance.classify status Option.none content).errPayload = some Payload.none := by
  refine ⟨rfl, rfl, ?_, ?_⟩
  · simp only [Binance.classify, Binance.raiseTail]
    by_cases h429 : status = 429
    · simp [h429, strCat, PyOutcome.errKind]
    · by_cases h418 : status = 418
      · simp [h429, h418, strCat, PyOutcome.errKind]
      · simp [h429, h418, strCat, PyOutcome.errKind]
  · simp only [Binance.classify, Binance.raiseTail]
    by_cases h429 : status = 429
    · simp [h429, strCat, PyOutcome.errPayload]
    · by_cases h418 : status = 418
      · simp [h429, h418, strCat, PyOutcome.errPayload]
      · simp [h429, h418, strCat, PyOutcome.errPayload]

/-- C3: under the sorted-urlencoded-HMAC-hex scheme, an authenticated
request with access key `K`, secret `S`, params `a=1, b=2` and timestamp
`T` already present attaches the signature computed over the canonical
string `a=1&api_key=K&b=2&timestamp=T` — keys ordered lexicographically
after `api_key` is injected.  `hm` is the (abstracted) hex HMAC-SHA256;
`K` and `T` are assumed URL-quoting-invariant, as real keys and integral
timestamps are. -/
theorem bybit_sorted_signature_canonical (hm : String → String → String)
    (K S T now : String) (hK : quotePlus K = K) (hT : quotePlus T = T) :
    (Bybit.signParams hm K S now [("a", "1"), ("b", "2"), ("timestamp", T)]).lookup "sign" =
      some (hm S ("a=1&api_key=" ++ K ++ "&b=2&timestamp=" ++ T)) := by
  have hcanon :
      urlencode (sortParams [("a", "1"), ("b", "2"), ("timestamp", T), ("api_key", K)]) =
        "a=1&api_key=" ++ K ++ "&b=2&timestamp=" ++ T := by
    show quotePlus "a" ++ "=" ++ quotePlus "1" ++ "&" ++
        (quotePlus "api_key" ++ "=" ++ quotePlus K ++ "&" ++
          (quotePlus "b" ++ "=" ++ quotePlus "2" ++ "&" ++
            (quotePlus "timestamp" ++ "=" ++ quotePlus T))) = _
    rw [hK, hT]
    apply String.ext
    simp only [String.data_append, List.append_assoc]
    rfl
  show some (hm S
      (urlencode (sortParams [("a", "1"), ("b", "2"), ("timestamp", T), ("api_key", K)]))) = _
  rw [hcanon]

/-- C3 (witness): concrete evaluation at `K = "KEY"`, `T = "17"`, with
the digest abstracted as the identity on the canonical payload. -/
theorem bybit_sorted_signature_canonical_witness :
    (Bybit.signParams (fun _ p => p) "KEY" "SEC" "0"
      [("a", "1"), ("b", "2"), ("timestamp", "17")]).lookup "sign" =
      some ("a=1&api_key=" ++ "KEY" ++ "&b=2&timestamp=" ++ "17") :=
  bybit_sorted_signature_canonical (fun _ p => p) "KEY" "SEC" "17" "0" (by decide) (by decide)

/-- C4: the sorted-urlencoded signers are invariant under the insertion
order of the parameters: for any two insertion orders of the same
parameter mapping (distinct keys), `BaseBybitApi.generate_signature` and
`HuobiApiBase.generate_signature` (with fixed secret, method, host and
path) produce identical signatures, for every digest function. -/
theorem sorted_signers_permutation_invariant (hm : String → String → String)
    (secretKey : String) (ps qs : List (String × String))
    (hperm : List.Perm ps qs) (hnd : (ps.map Prod.fst).Nodup) :
    Bybit.generate_signature hm secretKey ps = Bybit.generate_signature hm secretKey qs ∧
    ∀ method hostUrl requestPath,
      Huobi.generate_signature hm secretKey method hostUrl requestPath ps =
        Huobi.generate_signature hm secretKey method hostUrl requestPath qs := by
  have hsort : sortParams ps = sortParams qs := sortParams_eq_of_perm hperm hnd
  constructor
  · unfold Bybit.generate_signature
    rw [hsort]
  · intro method hostUrl requestPath
    unfold Huobi.generate_signature
    rw [hsort]

/-- C4 (witness): the two insertion orders of `a=1, b=2`. -/
theorem sorted_signers_permutation_invariant_witness :
    Bybit.generate_signature (fun _ p => p) "SEC" [("a", "1"), ("b", "2")] =
      Bybit.generate_signature (fun _ p => p) "SEC" [("b", "2"), ("a", "1")] ∧
    ∀ method hostUrl requestPath,
      Huobi.generate_signature (fun _ p => p) "SEC" method hostUrl requestPath
          [("a", "1"), ("b", "2")] =
        Huobi.generate_signature (fun _ p => p) "SEC" method hostUrl requestPath
          [("b", "2"), ("a", "1")] :=
  sorted_signers_permutation_invariant (fun _ p => p) "SEC" [("a", "1"), ("b", "2")]
    [("b", "2"), ("a", "1")] (List.Perm.swap _ _ _) (by decide)

/-- The body either is not a dict, or its message field under `key` is a
string or absent (so Python's message concatenation cannot raise). -/
def bodyMsgOk (decoded : Option Json) (key : String) : Bool :=
  match decoded with
  | some (Json.obj fields) => msgIsStr fields key
  | _ => true

/-- C5: on a failed response a rate-limiting HTTP status is classified
before any native-code-range rule.  For Binance, status 429 yields
`OutOfRateLimitWarning` and status 418 yields `OutOfRateLimitError`
whatever the body (in particular whatever the native code); for Bybit,
every error raised at status 403 is `OutOfRateLimitError`, before the
`ret_code` 10003/10018 check can pick a kind.  (The message field, when
present, is assumed to be a string, as the source's concatenation
requires.) -/
theorem rate_limit_status_precedes_code_rules :
    (∀ (decoded : Option Json) (content : String), bodyMsgOk decoded "msg" = true →
      (Binance.classify 429 decoded content).errKind = some .outOfRateLimitWarning) ∧
    (∀ (decoded : Option Json) (content : String), bodyMsgOk decoded "msg" = true →
      (Binance.classify 418 decoded content).errKind = some .outOfRateLimitError) ∧
    (∀ (decoded : Option Json) (content : String) (r : ErrorRecord),
      bodyMsgOk decoded "ret_msg" = true →
      Bybit.classify 403 decoded content = .raised r → r.kind = .outOfRateLimitError) := by
  refine ⟨?_, ?_, ?_⟩
  · intro decoded content h
    match decoded with
    | Option.none => simp [Binance.classify, Binance.raiseTail, strCat, PyOutcome.errKind]
    | some (Json.null) | some (Json.bool _) | some (Json.num _) | some (Json.str _)
    | some (Json.arr _) =>
      simp [Binance.classify, Binance.raiseTail, strCat, PyOutcome.errKind]
    | some (Json.obj fields) =>
      simp only [bodyMsgOk, msgIsStr] at h
      simp only [Binance.classify, Binance.raiseTail, Json.getD,
        if_neg (show (429 : Int) ≠ 200 by decide), if_pos rfl]
      match hm : fields.lookup "msg" with
      | some (Json.str s) => simp [strCat, PyOutcome.errKind]
      | some (Json.null) | some (Json.bool _) | some (Json.num _)
      | some (Json.arr _) | some (Json.obj _) => rw [hm] at h; simp at h
      | Option.none => simp [strCat, PyOutcome.errKind]
  · intro decoded content h
    match decoded with
    | Option.none => simp [Binance.classify, Binance.raiseTail, strCat, PyOutcome.errKind]
    | some (Json.null) | some (Json.bool _) | some (Json.num _) | some (Json.str _)
    | some (Json.arr _) =>
      simp [Binance.classify, Binance.raiseTail, strCat, PyOutcome.errKind]
    | some (Json.obj fields) =>
      simp only [bodyMsgOk, msgIsStr] at h
      simp only [Binance.classify, Binance.raiseTail, Json.getD,
        if_neg (show (418 : Int) ≠ 200 by decide),
        if_neg (show (418 : Int) ≠ 429 by decide), if_pos rfl]
      match hm : fields.lookup "msg" with
      | some (Json.str s) => simp [strCat, PyOutcome.errKind]
      | some (Json.null) | some (Json.bool _) | some (Json.num _)
      | some (Json.arr _) | some (Json.obj _) => rw [hm] at h; simp at h
      | Option.none => simp [strCat, PyOutcome.errKind]
  · intro decoded content r h hr
    match decoded with
    | Option.none =>
      simp [Bybit.classify, Bybit.raiseTail, strCat, PyOutcome.errKind] at hr
      rw [← hr]
    | some (Json.null) | some (Json.bool _) | some (Json.num _) | some (Json.str _)
    | some (Json.arr _) =>
      simp [Bybit.classify, Bybit.raiseTail, strCat, PyOutcome.errKind] at hr
      rw [← hr]
    | some (Json.obj fields) =>
      simp only [bodyMsgOk, msgIsStr] at h
      simp only [Bybit.classify, Bybit.raiseTail, Json.getD,
        if_neg (show (403 : Int) ≠ 200 by decide), if_pos rfl] at hr
      by_cases h0 : Json.getD fields "ret_code" (.num (-1)) = .num 0
      · rw [Json.getD] at h0
        simp only [Json.getD, h0, if_pos rfl, if_true] at hr
        nomatch hr
      · rw [Json.getD] at h0
        simp only [Json.getD, if_neg h0] at hr
        match hm : fields.lookup "ret_msg" with
        | some (Json.str s) => rw [hm] at hr; simp [strCat] at hr; rw [← hr]
        | some (Json.null) | some (Json.bool _) | some (Json.num _)
        | some (Json.arr _) | some (Json.obj _) => rw [hm] at h; simp at h
        | Option.none => rw [hm] at hr; simp [strCat] at hr; rw [← hr]

/-- C5 (witness): Binance status 429 with the rate-limit native code
-1003 present, Binance status 418, Bybit status 403 with an unrelated
`ret_code`. -/
theorem rate_limit_status_precedes_code_rules_witness :
    (Binance.classify 429 (some (.obj [("code", .num (-1003)), ("msg", .str "x")]))
      "").errKind = some .outOfRateLimitWarning ∧
    (Binance.classify 418 (some (.obj [("code", .num 7)])) "").errKind =
      some .outOfRateLimitError ∧
    (⟨.outOfRateLimitError, .str "请求超限：x", .num 5, 403,
        .json (.obj [("ret_code", .num 5), ("ret_msg", .str "x")])⟩ : ErrorRecord).kind =
      .outOfRateLimitError :=
  ⟨rate_limit_status_precedes_code_rules.1 _ "" (by decide),
    rate_limit_status_precedes_code_rules.2.1 _ "" (by decide),
    rate_limit_status_precedes_code_rules.2.2
      (some (.obj [("ret_code", .num 5), ("ret_msg", .str "x")])) ""
      ⟨.outOfRateLimitError, .str "请求超限：x", .num 5, 403,
        .json (.obj [("ret_code", .num 5), ("ret_msg", .str "x")])⟩
      (by decide) (by decide)⟩

/-- C6 (counterexample): OKX v5 classifies code 50002 by raising
`errors.TimeoutError(rc, msg)` — the code and message passed
positionally into the `error_msg`/`error_code` slots and no `payload`
argument — so the raised error does not carry the decoded body. -/
theorem okex_code_specific_raise_drops_payload :
    Okex.classify .v5 400 (some (.obj [("code", .str "50002"), ("msg", .str "m")])) "" =
      .raised ⟨.timeoutError, .num 50002, .str "m", -1, Payload.none⟩ ∧
    (Okex.classify .v5 400
        (some (.obj [("code", .str "50002"), ("msg", .str "m")])) "").errPayload ≠
      some (.json (.obj [("code", .str "50002"), ("msg", .str "m")])) := by
  exact ⟨by decide, by decide⟩

/-- C6 (amended): every error the Huobi classifier raises on a decoded
body carries that body as its payload, and so does every error the OKX
classifier raises on a decoded body except the three code-specific
raises (50002 `TimeoutError`, 50001 `ExchangeInMaintain`, 50011
`OutOfRateLimitError`), which carry no payload. -/
theorem classifier_errors_carry_decoded_payload :
    (∀ (status : Int) (reason : String) (obj : Json) (r : ErrorRecord),
      Huobi.classify status reason (some obj) = .raised r → r.payload = .json obj) ∧
    (∀ (version : OkexVersion) (status : Int) (obj : Json) (content : String)
        (r : ErrorRecord),
      Okex.classify version status (some obj) content = .raised r →
      r.kind ≠ .timeoutError → r.kind ≠ .exchangeInMaintain →
      r.kind ≠ .outOfRateLimitError → r.payload = .json obj) := by
  constructor
  · intro status reason obj r hr
    match obj with
    | Json.null | Json.bool _ | Json.num _ | Json.str _ | Json.arr _ =>
      simp only [Huobi.classify] at hr
      injection hr with h
      rw [← h]
    | Json.obj fields =>
      simp only [Huobi.classify] at hr
      rcases hfs : fields.lookup "status" with _ | s
      · simp only [hfs] at hr
        rcases hfe : fields.lookup "error" with _ | errv
        · simp only [hfe] at hr; nomatch hr
        · simp only [hfe] at hr; injection hr with h; rw [← h]
      · simp only [hfs] at hr
        by_cases hok : s = .str "ok"
        · rw [if_pos hok] at hr; nomatch hr
        · rw [if_neg hok] at hr
          by_cases hmain : s = .str "maintain"
          · rw [if_pos hmain] at hr; injection hr with h; rw [← h]
          · rw [if_neg hmain] at hr; injection hr with h; rw [← h]
  · intro version status obj content r hr hk1 hk2 hk3
    match version with
    | OkexVersion.v5 =>
      match obj with
      | Json.null | Json.bool _ | Json.num _ | Json.str _ | Json.arr _ =>
        simp only [Okex.classify] at hr
        injection hr with h
        rw [← h]
      | Json.obj fields =>
        simp only [Okex.classify] at hr
        rcases hfc : fields.lookup "code" with _ | codev
        · simp only [hfc] at hr
          rcases hfm : fields.lookup "msg" with _ | m
          · simp only [hfm] at hr; injection hr with h; rw [← h]
          · simp only [hfm] at hr; injection hr with h; rw [← h]
        · simp only [hfc] at hr
          rcases hti : codev.toInt with _ | rc
          · simp only [hti] at hr; nomatch hr
          · simp only [hti] at hr
            rcases hfm : fields.lookup "msg" with _ | msg
            · simp only [hfm] at hr; nomatch hr
            · simp only [hfm] at hr
              by_cases h0 : rc = 0
              · rw [if_pos h0] at hr; nomatch hr
              · rw [if_neg h0] at hr
                by_cases h2 : rc = 50002
                · rw [if_pos h2] at hr
                  injection hr with h
                  rw [← h] at hk1
                  exact absurd rfl hk1
                · rw [if_neg h2] at hr
                  by_cases h1 : rc = 50001
                  · rw [if_pos h1] at hr
                    injection hr with h
                    rw [← h] at hk2
                    exact absurd rfl hk2
                  · rw [if_neg h1] at hr
                    by_cases h11 : rc = 50011
                    · rw [if_pos h11] at hr
                      injection hr with h
                      rw [← h] at hk3
                      exact absurd rfl hk3
                    · rw [if_neg h11] at hr
                      injection hr with h
                      rw [← h]
    | OkexVersion.v3 =>
      match obj with
      | Json.null | Json.bool _ | Json.num _ | Json.str _ | Json.arr _ =>
        simp only [Okex.classify] at hr
        by_cases hs : status = 200
        · rw [if_pos hs] at hr; nomatch hr
        · rw [if_neg hs] at hr; nomatch hr
      | Json.obj fields =>
        simp only [Okex.classify] at hr
        by_cases hs : status = 200
        · rw [if_pos hs] at hr; nomatch hr
        · rw [if_neg hs] at hr; injection hr with h; rw [← h]

/-- C6 (witness): a Huobi error-status body and an OKX generic native
code both retain the body as payload. -/
theorem classifier_errors_carry_decoded_payload_witness :
    (⟨.exchangeError, .str "boom", .str "error", 500,
        .json (.obj [("status", .str "error"), ("err-msg", .str "boom")])⟩ :
      ErrorRecord).payload =
        .json (.obj [("status", .str "error"), ("err-msg", .str "boom")]) ∧
    (⟨.exchangeError, .str "bad", .num 51000, 400,
        .json (.obj [("code", .num 51000), ("msg", .str "bad")])⟩ :
      ErrorRecord).payload = .json (.obj [("code", .num 51000), ("msg", .str "bad")]) :=
  ⟨classifier_errors_carry_decoded_payload.1 500 "ISE"
      (.obj [("status", .str "error"), ("err-msg", .str "boom")])
      ⟨.exchangeError, .str "boom", .str "error", 500,
        .json (.obj [("status", .str "error"), ("err-msg", .str "boom")])⟩ (by decide),
    classifier_errors_carry_decoded_payload.2 .v5 400
      (.obj [("code", .num 51000), ("msg", .str "bad")]) ""
      ⟨.exchangeError, .str "bad", .num 51000, 400,
        .json (.obj [("code", .num 51000), ("msg", .str "bad")])⟩
      (by decide) (by decide) (by decide) (by decide)⟩

/-- C7 (code evaluated at the failing input): for an unsupported verb the
request builders do fail before any dispatch — the outcome is the same
for every possible network result — but neither raises an
`InvalidMethod`-kind error, because `cclib/errors.py` defines no such
class: Backpack's `raise errors.InvalidMethod(method)` becomes an
`AttributeError` that the final `except Exception` clause re-raises as
`ExchangeError`, and Huobi raises a plain `ValueError`. -/
theorem unsupported_method_not_invalid_method_kind :
    (∀ h : Backpack.HttpResult, Backpack.request "DELETE" h =
      .raised ⟨.exchangeError, .str "module cclib.errors has no attribute InvalidMethod",
        .num (-1), -1, Payload.none⟩) ∧
    (∀ (status : Int) (reason : String) (decoded : Option Json),
      Huobi.request "DELETE" status reason decoded =
        .pyexc "ValueError" "unsupported method: DELETE") := by
  constructor
  · intro h
    rfl
  · intro status reason decoded
    rfl

/-- C8 (code evaluated at the failing input): a decoded dict body with
neither a `status` nor an `error` key falls off the end of
`HuobiApiBase.request`, which therefore returns Python `None` — neither
the decoded payload nor a raised error — at every HTTP status. -/
theorem huobi_markerless_dict_returns_none :
    ∀ (status : Int) (reason : String),
      Huobi.classify status reason (some (.obj [("foo", .num 1)])) = .ok Option.none := by
  intro status reason
  rfl

/-- C9 (counterexample): caching one session while no proxy is set (a
state reached directly through `get_session`) and then calling
`set_proxy(None)` raises `KeyError` out of `del sess.proxies['http']`
instead of leaving the sessions unproxied. -/
theorem set_proxy_none_keyerror_on_unproxied_session :
    (HttpSession.get_session ⟨[], Option.none⟩ (some "https://api.bybit.com")).2 =
      ⟨[(some "https://api.bybit.com", ⟨⟨Option.none, Option.none⟩⟩)], Option.none⟩ ∧
    HttpSession.set_proxy
        ⟨[(some "https://api.bybit.com", ⟨⟨Option.none, Option.none⟩⟩)], Option.none⟩
        Option.none =
      .pyexc "KeyError" "http" :=
  ⟨rfl, rfl⟩

/-- Helper: a successful `applyAll` with proxy `None` clears every
session's proxy entries, provided each session has both entries (so the
two `del` statements find their keys). -/
theorem applyAll_none_ok :
    ∀ l : List (Option String × HttpSession.Session),
    (∀ e ∈ l, e.2.proxies.http.isSome ∧ e.2.proxies.https.isSome) →
    ∃ l2, HttpSession.applyAll Option.none l = .ok l2 ∧
      ∀ e ∈ l2, e.2.proxies = ⟨Option.none, Option.none⟩
  | [], _ => ⟨[], rfl, by intro e he; cases he⟩
  | (k, s) :: rest, hall => by
    obtain ⟨h1, h2⟩ := hall (k, s) (List.mem_cons_self _ _)
    obtain ⟨v1, hv1⟩ := Option.isSome_iff_exists.mp h1
    obtain ⟨v2, hv2⟩ := Option.isSome_iff_exists.mp h2
    obtain ⟨l2, hl2, hprop⟩ :=
      applyAll_none_ok rest (fun e he => hall e (List.mem_cons_of_mem _ he))
    have hs1 : s.proxies.http = some v1 := hv1
    have hs2 : s.proxies.https = some v2 := hv2
    refine ⟨(k, ⟨⟨Option.none, Option.none⟩⟩) :: l2, ?_, ?_⟩
    · have happ : HttpSession.applyProxy Option.none s = .ok ⟨⟨Option.none, Option.none⟩⟩ := by
        have e1 : HttpSession.applyProxy Option.none s =
            (match s.proxies.http with
             | Option.none => .pyexc "KeyError" "http"
             | some _ =>
               match s.proxies.https with
               | Option.none => .pyexc "KeyError" "https"
               | some _ => .ok ⟨⟨Option.none, Option.none⟩⟩) := rfl
        rw [e1, hs1, hs2]
      have econs : HttpSession.applyAll Option.none ((k, s) :: rest) =
          (match HttpSession.applyProxy Option.none s with
           | .ok s2 =>
             match HttpSession.applyAll Option.none rest with
             | .ok rest2 => .ok ((k, s2) :: rest2)
             | .raised e => .raised e
             | .pyexc n m => .pyexc n m
           | .raised e => .raised e
           | .pyexc n m => .pyexc n m) := rfl
      rw [econs, happ, hl2]
    · intro e he
      rcases List.mem_cons.mp he with he | he
      · rw [he]
      · exact hprop e he

/-- Helper: a successful lookup in a list all of whose entries satisfy a
property yields a satisfying session. -/
theorem lookup_of_forall (P : HttpSession.Session → Prop) :
    ∀ {l : List (Option String × HttpSession.Session)},
    (∀ e ∈ l, P e.2) → ∀ {k : Option String} {s : HttpSession.Session},
    l.lookup k = some s → P s
  | [], _, _, _, hlk => by cases hlk
  | (k0, s0) :: rest, hall, k, s, hlk => by
    rw [List.lookup] at hlk
    rcases hbeq : (k == k0) with _ | _
    · simp only [hbeq] at hlk
      exact lookup_of_forall P (fun e he => hall e (List.mem_cons_of_mem _ he)) hlk
    · simp only [hbeq] at hlk
      cases hlk
      exact hall (k0, s0) (List.mem_cons_self _ _)

/-- C9 (amended): provided every cached session currently has both proxy
entries set — which is the situation whenever the proxy was previously
set to a truthy value — `set_proxy(None)` returns normally, clears the
process-wide proxy, leaves every cached session with no proxy
configured, and every session subsequently obtained from the cache (hit
or miss) is unproxied. -/
theorem set_proxy_none_clears_all_proxied_sessions (st : HttpSession.State)
    (hall : ∀ e ∈ st.sessions, e.2.proxies.http.isSome ∧ e.2.proxies.https.isSome) :
    ∃ st2, HttpSession.set_proxy st Option.none = .ok st2 ∧
      st2.proxy = Option.none ∧
      (∀ e ∈ st2.sessions, e.2.proxies = ⟨Option.none, Option.none⟩) ∧
      ∀ url, (HttpSession.get_session st2 url).1.proxies = ⟨Option.none, Option.none⟩ := by
  obtain ⟨l2, hl2, hprop⟩ := applyAll_none_ok st.sessions hall
  refine ⟨⟨l2, Option.none⟩, ?_, rfl, hprop, ?_⟩
  · simp only [HttpSession.set_proxy, hl2]
  · intro url
    simp only [HttpSession.get_session]
    match hlk : List.lookup url l2 with
    | some s =>
      simp only [hlk]
      exact lookup_of_forall (fun s2 => s2.proxies = ⟨Option.none, Option.none⟩) hprop hlk
    | Option.none =>
      simp only [hlk]
      rfl

/-- C9 (witness for the amended theorem): a state holding one proxied
session. -/
theorem set_proxy_none_clears_all_proxied_sessions_witness :
    ∃ st2, HttpSession.set_proxy
        ⟨[(some "https://x", ⟨⟨some "http://proxy:1", some "http://proxy:1"⟩⟩)],
          some "http://proxy:1"⟩ Option.none = .ok st2 ∧
      st2.proxy = Option.none ∧
      (∀ e ∈ st2.sessions, e.2.proxies = ⟨Option.none, Option.none⟩) ∧
      ∀ url, (HttpSession.get_session st2 url).1.proxies = ⟨Option.none, Option.none⟩ :=
  set_proxy_none_clears_all_proxied_sessions
    ⟨[(some "https://x", ⟨⟨some "http://proxy:1", some "http://proxy:1"⟩⟩)],
      some "http://proxy:1"⟩
    (by intro e he; simp at he; rw [he]; exact ⟨rfl, rfl⟩)

/-- C10: in `BackpackApi.request` every response with an HTTP error
status (4xx/5xx) — whatever JSON body it carries —
raises `ConnectionError`: `response.raise_for_status()` raises
`HTTPError`, a `RequestException` subclass caught by the
`except RequestException` clause, so Backpack failures never reach an
exchange-error classification by status or native code. -/
theorem backpack_http_error_status_raises_connection_error
    (status : Int) (decoded : Option Json) (content : String)
    (h4 : 400 ≤ status) (h6 : status < 600) :
    (Backpack.request "GET" (.resp status decoded content)).errKind =
      some .connectionError ∧
    (Backpack.request "POST" (.resp status decoded content)).errKind =
      some .connectionError := by
  have hcond : 400 ≤ status ∧ status < 600 := ⟨h4, h6⟩
  constructor
  · have hGET : Backpack.request "GET" (.resp status decoded content) =
        if 400 ≤ status ∧ status < 600 then
          .raised ⟨.connectionError, .str "HTTPError", .num (-1), -1, Payload.none⟩
        else
          match decoded with
          | some obj => .ok obj
          | Option.none =>
            .raised ⟨.exchangeError, .str "JSONDecodeError", .num (-1), -1, Payload.none⟩ := rfl
    rw [hGET, if_pos hcond]
    rfl
  · have hPOST : Backpack.request "POST" (.resp status decoded content) =
        if 400 ≤ status ∧ status < 600 then
          .raised ⟨.connectionError, .str "HTTPError", .num (-1), -1, Payload.none⟩
        else
          match decoded with
          | some obj => .ok obj
          | Option.none =>
            .raised ⟨.exchangeError, .str "JSONDecodeError", .num (-1), -1, Payload.none⟩ := rfl
    rw [hPOST, if_pos hcond]
    rfl

/-- C10 (witness): status 404 with a well-formed JSON exchange-error
body still becomes `ConnectionError`. -/
theorem backpack_http_error_status_raises_connection_error_witness :
    (Backpack.request "GET"
      (.resp 404 (some (.obj [("code", .num 123), ("msg", .str "bad")])) "")).errKind =
        some .connectionError ∧
    (Backpack.request "POST"
      (.resp 404 (some (.obj [("code", .num 123), ("msg", .str "bad")])) "")).errKind =
        some .connectionError :=
  backpack_http_error_status_raises_connection_error 404
    (some (.obj [("code", .num 123), ("msg", .str "bad")])) "" (by decide) (by decide)
